import Mathlib

/-!
Verification of the RAG-resume repository's storage contract
(src/storage.py), mock relevance scorer (src/rag_analyzer.py) and the
analyze endpoint (src/main.py), shallowly embedded in Lean 4.

Modelling conventions:
* Python dicts are association lists with Python's insertion-order
  semantics (setting an existing key overwrites in place, a new key is
  appended at the end); JSON-like values are the inductive `Value`.
* `uuid.uuid4()` and `datetime.now()` are effectful; the embedded
  operations take the generated id (`freshId : String`) and the current
  time (`now : Nat`, an abstract tick) as explicit parameters.
* Python `round(x, n)` is modelled as exact round-half-to-even on ℚ.
-/

/-- JSON-like values stored in records (strings, ints, bools, string
lists, None, and datetime values modelled as abstract ticks). -/
inductive Value where
  | none : Value
  | s : String → Value
  | i : Int → Value
  | b : Bool → Value
  | strList : List String → Value
  | time : Nat → Value
deriving DecidableEq, Repr

/-- A Python dict: association list with insertion-order semantics. -/
abbrev Dict : Type := List (String × Value)

/-- Python `d.get(k)`: first entry with key `k`, if any. -/
def dGet : Dict → String → Option Value
  | [], _ => Option.none
  | (k', v) :: rest, k => if k' = k then some v else dGet rest k

/-- Python `d[k] = v` / a later key in a dict literal: overwrite the
first entry with key `k` in place, else append `(k, v)` at the end. -/
def dSet : Dict → String → Value → Dict
  | [], k, v => [(k, v)]
  | (k', v') :: rest, k, v =>
      if k' = k then (k, v) :: rest else (k', v') :: dSet rest k v

/-- Python `{**a, **b}`: start from `a`, set each entry of `b` in order. -/
def dMerge (a b : Dict) : Dict :=
  b.foldl (fun acc p => dSet acc p.1 p.2) a

/-- The keys of a dict, in order. -/
def dKeys (d : Dict) : List String :=
  d.map (fun p => p.1)

/-- A real Python dict has no duplicate keys. -/
def dNodupKeys (d : Dict) : Prop :=
  (dKeys d).Nodup

/-- Python truthiness of a `Value` (`None`, `0`, `""`, `[]`, `False`
are falsy; datetimes are always truthy). -/
def pyTruthy : Value → Bool
  | Value.none => false
  | Value.s str => !(str = "")
  | Value.i n => !(n = 0)
  | Value.b bo => bo
  | Value.strList l => !l.isEmpty
  | Value.time _ => true

theorem dMerge_cons (a : Dict) (k₀ : String) (v₀ : Value) (rest : Dict) :
    dMerge a ((k₀, v₀) :: rest) = dMerge (dSet a k₀ v₀) rest := by
  simp [dMerge]

theorem dGet_dSet_self (d : Dict) (k : String) (v : Value) :
    dGet (dSet d k v) k = some v := by
  induction d with
  | nil => simp [dSet, dGet]
  | cons p rest ih =>
      obtain ⟨k', v'⟩ := p
      by_cases h : k' = k
      · simp [dSet, dGet, h]
      · simp [dSet, dGet, h, ih]

theorem dGet_dSet_ne (d : Dict) (k k' : String) (v : Value) (h : k' ≠ k) :
    dGet (dSet d k v) k' = dGet d k' := by
  induction d with
  | nil => simp [dSet, dGet, Ne.symm h]
  | cons p rest ih =>
      obtain ⟨k₀, v₀⟩ := p
      by_cases h₀ : k₀ = k
      · subst h₀
        simp [dSet, dGet, Ne.symm h]
      · simp [dSet, dGet, h₀, ih]

theorem dGet_mem_keys {d : Dict} {k : String} {v : Value}
    (h : dGet d k = some v) : k ∈ dKeys d := by
  induction d with
  | nil => simp [dGet] at h
  | cons p rest ih =>
      obtain ⟨k₀, v₀⟩ := p
      by_cases h₀ : k₀ = k
      · subst h₀
        show k₀ ∈ k₀ :: dKeys rest
        exact List.mem_cons_self _ _
      · simp [dGet, h₀] at h
        show k ∈ k₀ :: dKeys rest
        exact List.mem_cons_of_mem _ (ih h)

theorem dGet_eq_none_of_not_mem_keys {d : Dict} {k : String}
    (h : k ∉ dKeys d) : dGet d k = Option.none := by
  cases hg : dGet d k with
  | none => rfl
  | some v => exact absurd (dGet_mem_keys hg) h

theorem dGet_dMerge_none (a b : Dict) (k : String) (h : dGet b k = Option.none) :
    dGet (dMerge a b) k = dGet a k := by
  induction b generalizing a with
  | nil => simp [dMerge]
  | cons p rest ih =>
      obtain ⟨k₀, v₀⟩ := p
      by_cases h₀ : k₀ = k
      · simp [dGet, h₀] at h
      · simp only [dGet, if_neg h₀] at h
        rw [dMerge_cons, ih (dSet a k₀ v₀) h,
          dGet_dSet_ne a k₀ k v₀ (Ne.symm h₀)]

theorem dGet_dMerge_some (a b : Dict) (k : String) (v : Value)
    (hnd : dNodupKeys b) (h : dGet b k = some v) :
    dGet (dMerge a b) k = some v := by
  induction b generalizing a with
  | nil => simp [dGet] at h
  | cons p rest ih =>
      obtain ⟨k₀, v₀⟩ := p
      have hcons : (k₀ :: dKeys rest).Nodup := hnd
      have hk₀ : k₀ ∉ dKeys rest := (List.nodup_cons.mp hcons).1
      have hnd' : dNodupKeys rest := (List.nodup_cons.mp hcons).2
      by_cases h₀ : k₀ = k
      · subst h₀
        simp only [dGet, if_pos rfl] at h
        have hrest : dGet rest k₀ = Option.none :=
          dGet_eq_none_of_not_mem_keys hk₀
        rw [dMerge_cons, dGet_dMerge_none _ _ _ hrest, dGet_dSet_self]
        exact h
      · simp only [dGet, if_neg h₀] at h
        rw [dMerge_cons]
        exact ih (dSet a k₀ v₀) hnd' h

theorem dKeys_dSet (d : Dict) (k : String) (v : Value) :
    dKeys (dSet d k v) = if k ∈ dKeys d then dKeys d else dKeys d ++ [k] := by
  induction d with
  | nil => simp [dSet, dKeys]
  | cons p rest ih =>
      obtain ⟨k₀, v₀⟩ := p
      by_cases h₀ : k₀ = k
      · subst h₀
        show dKeys (if k₀ = k₀ then (k₀, v) :: rest else (k₀, v₀) :: dSet rest k₀ v) = _
        have hmem : k₀ ∈ dKeys ((k₀, v₀) :: rest) := List.mem_cons_self _ _
        simp only [if_pos rfl, if_pos hmem]
        show k₀ :: dKeys rest = k₀ :: dKeys rest
        rfl
      · show dKeys (if k₀ = k then (k, v) :: rest else (k₀, v₀) :: dSet rest k v) = _
        simp only [if_neg h₀]
        have hcons : dKeys ((k₀, v₀) :: dSet rest k v) = k₀ :: dKeys (dSet rest k v) := rfl
        have hcons₂ : dKeys ((k₀, v₀) :: rest) = k₀ :: dKeys rest := rfl
        rw [hcons, hcons₂, ih]
        by_cases hm : k ∈ dKeys rest
        · have hm₂ : k ∈ k₀ :: dKeys rest := List.mem_cons_of_mem _ hm
          simp [hm, hm₂]
        · have hm₂ : k ∉ k₀ :: dKeys rest := by
            intro hc
            rcases List.mem_cons.mp hc with hc | hc
            · exact h₀ hc.symm
            · exact hm hc
          simp [hm, hm₂]

theorem dNodupKeys_dSet {d : Dict} (k : String) (v : Value)
    (h : dNodupKeys d) : dNodupKeys (dSet d k v) := by
  unfold dNodupKeys at h ⊢
  rw [dKeys_dSet]
  by_cases hm : k ∈ dKeys d
  · simp [hm, h]
  · simp [hm, List.nodup_append, h]

theorem dSet_eq_append_of_absent (d : Dict) (k : String) (v : Value)
    (h : dGet d k = Option.none) : dSet d k v = d ++ [(k, v)] := by
  induction d with
  | nil => rfl
  | cons p rest ih =>
      obtain ⟨k₀, v₀⟩ := p
      by_cases h₀ : k₀ = k
      · simp [dGet, h₀] at h
      · simp only [dGet, if_neg h₀] at h
        show (if k₀ = k then (k, v) :: rest else (k₀, v₀) :: dSet rest k v)
            = (k₀, v₀) :: (rest ++ [(k, v)])
        simp [if_neg h₀, ih h]

theorem dGet_append (a b : Dict) (k : String) :
    dGet (a ++ b) k = match dGet a k with
      | some v => some v
      | Option.none => dGet b k := by
  induction a with
  | nil => rfl
  | cons p rest ih =>
      obtain ⟨k₀, v₀⟩ := p
      by_cases h₀ : k₀ = k
      · show dGet ((k₀, v₀) :: (rest ++ b)) k = _
        simp [dGet, h₀]
      · show dGet ((k₀, v₀) :: (rest ++ b)) k = _
        simp [dGet, h₀, ih]

/-! ## Record store operations (src/storage.py, MemoryStorage.execute_operation) -/

/-- `StorageResult` of a `get_item` operation: `data` holds the found
record or Python `None`; `success`/`error` as in the dataclass defaults
(`success=True`, `error=None`; errors modelled as a message string). -/
structure StorageResult where
  data : Option Dict
  success : Bool
  error : Option String
deriving DecidableEq, Repr

/-- `enrich_item_with_metadata` (src/storage.py lines 72-79): keeps a
truthy caller-supplied `id`/`created_at`, otherwise fills in the freshly
generated id / current time; `updated_at` is always stamped with now.
The `uuid.uuid4()` result and `datetime.now()` are the `freshId`/`now`
parameters. -/
def enrich_item_with_metadata (item : Dict) (freshId : String) (now : Nat) : Dict :=
  let idVal := match dGet item "id" with
    | some v => if pyTruthy v then v else Value.s freshId
    | Option.none => Value.s freshId
  let caVal := match dGet item "created_at" with
    | some v => if pyTruthy v then v else Value.time now
    | Option.none => Value.time now
  dSet (dSet (dSet item "id" idVal) "created_at" caVal) "updated_at" (Value.time now)

/-- `update_item_timestamp` (src/storage.py lines 82-87):
`{**updates, 'updated_at': now}`. -/
def update_item_timestamp (updates : Dict) (now : Nat) : Dict :=
  dSet updates "updated_at" (Value.time now)

/-- The `add_item` branch of `execute_operation`: enrich, append,
write back; the result data is the enriched item's id. Returns the new
collection state and the returned id value. -/
def add_item_op (state : List Dict) (item : Dict) (freshId : String) (now : Nat) :
    List Dict × Value :=
  let enriched := enrich_item_with_metadata item freshId now
  (state ++ [enriched], (dGet enriched "id").getD Value.none)

/-- The `get_item` branch of `execute_operation`: linear scan for the
first record whose `id` field equals `item_id`; the collection is not
written. Result is `StorageResult(data=item-or-None)` with the dataclass
defaults `success=True`, `error=None`. -/
def get_item_op (state : List Dict) (item_id : Value) : List Dict × StorageResult :=
  (state, { data := state.find? (fun d => decide (dGet d "id" = some item_id)),
            success := true,
            error := Option.none })

/-- `update_single_item` (local function in the `update_item` branch):
merge the timestamped updates into a record iff its id matches. -/
def update_single_item (item_id : Value) (updates : Dict) (now : Nat) (item : Dict) : Dict :=
  if dGet item "id" = some item_id then dMerge item (update_item_timestamp updates now)
  else item

/-- The `update_item` branch of `execute_operation`: map
`update_single_item` over the collection; write back and report `True`
iff some record's id matched, else leave the collection and report
`False`. -/
def update_item_op (state : List Dict) (item_id : Value) (updates : Dict) (now : Nat) :
    List Dict × Bool :=
  let updated_data := state.map (update_single_item item_id updates now)
  let was_updated := state.any (fun d => decide (dGet d "id" = some item_id))
  if was_updated then (updated_data, true) else (state, false)

/-- The `delete_item` branch of `execute_operation`: filter out records
whose id matches; write back and report `True` iff the length changed,
else leave the collection and report `False`. -/
def delete_item_op (state : List Dict) (item_id : Value) : List Dict × Bool :=
  let filtered_data := state.filter (fun d => decide (dGet d "id" ≠ some item_id))
  if state.length ≠ filtered_data.length then (filtered_data, true) else (state, false)

/-! ## Domain models (src/models.py) and the mock scorer (src/rag_analyzer.py) -/

/-- `Resume` (src/models.py): datetimes are abstract ticks, the
`contact_info` dict is an association list of strings. -/
structure Resume where
  id : String
  name : String
  position : String
  experience : Int
  skills : List String
  education : String
  languages : List String
  contact_info : List (String × String)
  created_at : Nat
  updated_at : Nat
deriving DecidableEq, Repr

/-- `JobDescription` (src/models.py). -/
structure JobDescription where
  id : String
  title : String
  requirements : List String
  responsibilities : List String
  skills_required : List String
  experience_required : Int
  created_at : Nat
deriving DecidableEq, Repr

/-- The dict returned by `calculate_mock_analysis` / `get_default_analysis`,
as a typed record (scores are exact rationals). -/
structure AnalysisData where
  relevance_score : ℚ
  strengths : List String
  weaknesses : List String
  recommendations : List String
  job_match_percentage : ℚ
  analysis_text : String
deriving DecidableEq, Repr

/-- Round-half-to-even to the nearest integer, as Python's `round`
does on exact values. -/
def roundHalfEven (q : ℚ) : ℤ :=
  if q - (⌊q⌋ : ℚ) < 1/2 then ⌊q⌋
  else if 1/2 < q - (⌊q⌋ : ℚ) then ⌊q⌋ + 1
  else if ⌊q⌋ % 2 = 0 then ⌊q⌋ else ⌊q⌋ + 1

/-- Python `round(q, n)` (modelled exactly on ℚ, half-to-even). -/
def pyRound (n : ℕ) (q : ℚ) : ℚ :=
  ((roundHalfEven (q * 10 ^ n) : ℤ) : ℚ) / 10 ^ n

/-- `len(set(resume.skills) & set(job_description.skills_required))`. -/
def skills_match (resume : Resume) (job_description : JobDescription) : ℕ :=
  (resume.skills.toFinset ∩ job_description.skills_required.toFinset).card

/-- `max(len(job_description.skills_required), 1)`. -/
def total_required_skills (job_description : JobDescription) : ℕ :=
  max job_description.skills_required.length 1

/-- `(skills_match / total_required_skills) * 100` (Python true division). -/
def skill_match_percentage (resume : Resume) (job_description : JobDescription) : ℚ :=
  ((skills_match resume job_description : ℚ) / (total_required_skills job_description : ℚ)) * 100

/-- `min(resume.experience / max(job_description.experience_required, 1), 1.0)`. -/
def experience_match (resume : Resume) (job_description : JobDescription) : ℚ :=
  min ((resume.experience : ℚ) / ((max job_description.experience_required 1 : ℤ) : ℚ)) 1

/-- `(skill_match_percentage + experience_match * 100) / 200`. -/
def overall_score (resume : Resume) (job_description : JobDescription) : ℚ :=
  (skill_match_percentage resume job_description
    + experience_match resume job_description * 100) / 200

/-- `calculate_mock_analysis` (src/rag_analyzer.py lines 167-193),
local variables split out as the definitions above. -/
def calculate_mock_analysis (resume : Resume) (job_description : JobDescription) :
    AnalysisData :=
  let sm := skills_match resume job_description
  let total := total_required_skills job_description
  let name := resume.name
  let exp := resume.experience
  { relevance_score := pyRound 2 (overall_score resume job_description),
    strengths := [s!"Соответствие навыков: {sm}/{total}",
                  s!"Опыт работы: {exp} лет"],
    weaknesses := ["Требуется дополнительная оценка soft skills",
                   "Необходимо проверить соответствие образования"],
    recommendations := ["Провести техническое интервью",
                        "Оценить мотивацию кандидата"],
    job_match_percentage := pyRound 1 (overall_score resume job_description * 100),
    analysis_text := s!"Кандидат {name} имеет {sm} из {total} требуемых навыков и {exp} лет опыта работы." }

/-- `get_default_analysis` (src/rag_analyzer.py lines 196-205). -/
def get_default_analysis : AnalysisData :=
  { relevance_score := 1/2,
    strengths := ["Требуется дополнительный анализ"],
    weaknesses := ["Не удалось провести полный анализ"],
    recommendations := ["Провести ручную оценку"],
    job_match_percentage := 50,
    analysis_text := "Анализ не удалось завершить автоматически." }

/-! ## Analysis pipeline (src/rag_analyzer.py, RAGAnalyzer) -/

/-- `AnalysisContext` (src/rag_analyzer.py lines 20-28). The
`context_text` and `prompt` strings are carried through unchanged by the
analysis step, so their exact contents are irrelevant here. -/
structure AnalysisContext where
  resume : Resume
  job_description : JobDescription
  context_text : String
  prompt : String
  parsed_data : Option AnalysisData
deriving DecidableEq, Repr

/-- `AnalysisResultM` (src/rag_analyzer.py lines 31-39) at the
`_analyze_with_rag_safe` stage: its `result` field is still `None`
there and is omitted; exceptions are modelled as a message string. -/
structure AnalysisResultM where
  context : Option AnalysisContext
  error : Option String
deriving DecidableEq, Repr

/-- `RAGAnalyzer._analyze_with_rag_safe` (src/rag_analyzer.py lines
356-393). The external call `_call_openai_api_safe` is the
`api_response` parameter (`None` = call failed or returned nothing) and
`parse_response_safe` — whose interesting part is the stdlib
`json.loads` — is the `parse_response` parameter (`None` = no JSON
object found or JSON decoding failed). On the non-mock path a missing
response yields `get_default_analysis()`, and an unparsable one yields
`parse_result.or_else(get_default_analysis())`. -/
def analyze_with_rag_safe (use_mock : Bool) (result : AnalysisResultM)
    (api_response : Option String)
    (parse_response : String → Option AnalysisData) : AnalysisResultM :=
  match result.error, result.context with
  | some _, _ => result
  | Option.none, Option.none => result
  | Option.none, some ctx =>
      if use_mock then
        { context := some { ctx with
            parsed_data := some (calculate_mock_analysis ctx.resume ctx.job_description) },
          error := Option.none }
      else
        let analysis_data :=
          match api_response with
          | Option.none => get_default_analysis
          | some s => (parse_response s).getD get_default_analysis
        { context := some { ctx with parsed_data := some analysis_data },
          error := Option.none }

/-! ## The analyze endpoint (src/main.py, analyze_resume) -/

/-- Python truthiness of a `StorageResult` instance: the dataclass
defines neither a bool conversion nor a length, so it is always truthy
regardless of its `data`/`success` fields. -/
def storageResult_truthy (_ : StorageResult) : Bool :=
  true

/-- `analyze_resume` (src/main.py lines 464-495), modelled down to the
HTTP status it responds with. After the two `get_item` calls the code
tests `if not resume_data or not job_data` on the `StorageResult`
objects themselves (always truthy, so the 404 branch is dead) and then
evaluates `Resume(**resume_data)`, which unpacks the `StorageResult`
object — not a mapping — so a `TypeError` is raised unconditionally and
the surrounding `except` handler answers with status 500. -/
def analyze_resume_status (resumes jobs : List Dict) (body : Dict) : Nat :=
  let resume_id := (dGet body "resume_id").getD Value.none
  let job_id := (dGet body "job_id").getD Value.none
  if ¬ pyTruthy resume_id ∨ ¬ pyTruthy job_id then 400
  else
    let resume_data := (get_item_op resumes resume_id).2
    let job_data := (get_item_op jobs job_id).2
    if ¬ storageResult_truthy resume_data ∨ ¬ storageResult_truthy job_data then 404
    else 500

/-! ## Helper lemmas about rounding -/

theorem roundHalfEven_ge (q : ℚ) (n : ℤ) (h : (n : ℚ) ≤ q) :
    n ≤ roundHalfEven q := by
  have hf : n ≤ ⌊q⌋ := Int.le_floor.mpr h
  unfold roundHalfEven
  split_ifs <;> omega

theorem roundHalfEven_le (q : ℚ) (n : ℤ) (h : q ≤ (n : ℚ)) :
    roundHalfEven q ≤ n := by
  have hf : ⌊q⌋ ≤ n := by
    have := Int.floor_le_floor h
    rwa [Int.floor_intCast] at this
  unfold roundHalfEven
  split_ifs with h1 h2 h3
  · exact hf
  · have hq : (⌊q⌋ : ℚ) + 1/2 < q := by linarith
    have hlt : (⌊q⌋ : ℚ) < (n : ℚ) := by linarith
    have : ⌊q⌋ < n := by exact_mod_cast hlt
    omega
  · exact hf
  · have hq : (⌊q⌋ : ℚ) + 1/2 ≤ q := by linarith
    have hlt : (⌊q⌋ : ℚ) < (n : ℚ) := by linarith
    have : ⌊q⌋ < n := by exact_mod_cast hlt
    omega

theorem pyRound_mem_Icc (n : ℕ) (q : ℚ) (a b : ℤ)
    (h1 : (a : ℚ) ≤ q) (h2 : q ≤ (b : ℚ)) :
    (a : ℚ) ≤ pyRound n q ∧ pyRound n q ≤ (b : ℚ) := by
  have hp : (0 : ℚ) < 10 ^ n := by positivity
  have h1m : ((a * 10 ^ n : ℤ) : ℚ) ≤ q * 10 ^ n := by
    push_cast
    exact mul_le_mul_of_nonneg_right h1 hp.le
  have h2m : q * 10 ^ n ≤ ((b * 10 ^ n : ℤ) : ℚ) := by
    push_cast
    exact mul_le_mul_of_nonneg_right h2 hp.le
  have hge := roundHalfEven_ge (q * 10 ^ n) (a * 10 ^ n) h1m
  have hle := roundHalfEven_le (q * 10 ^ n) (b * 10 ^ n) h2m
  constructor
  · rw [pyRound, le_div_iff₀ hp]
    calc (a : ℚ) * 10 ^ n = ((a * 10 ^ n : ℤ) : ℚ) := by push_cast; ring
      _ ≤ ((roundHalfEven (q * 10 ^ n) : ℤ) : ℚ) := by exact_mod_cast hge
  · rw [pyRound, div_le_iff₀ hp]
    calc ((roundHalfEven (q * 10 ^ n) : ℤ) : ℚ)
        ≤ ((b * 10 ^ n : ℤ) : ℚ) := by exact_mod_cast hle
      _ = (b : ℚ) * 10 ^ n := by push_cast; ring

/-! ## Helper lemmas about the store -/

theorem find?_append_of_none {p : Dict → Bool} {l₁ l₂ : List Dict}
    (h : l₁.find? p = Option.none) : (l₁ ++ l₂).find? p = l₂.find? p := by
  induction l₁ with
  | nil => rfl
  | cons d rest ih =>
      by_cases hd : p d
      · simp [List.find?_cons, hd] at h
      · simp only [List.find?_cons, hd] at h ⊢
        simp only [List.cons_append, List.find?_cons, hd]
        exact ih h

theorem merged_record_facts (item updates : Dict) (now : Nat)
    (hnd : dNodupKeys updates) :
    dGet (dMerge item (update_item_timestamp updates now)) "updated_at"
        = some (Value.time now) ∧
    (∀ k, k ≠ "updated_at" → dGet updates k = Option.none →
        dGet (dMerge item (update_item_timestamp updates now)) k = dGet item k) ∧
    (∀ k v, k ≠ "updated_at" → dGet updates k = some v →
        dGet (dMerge item (update_item_timestamp updates now)) k = some v) := by
  have hnd' : dNodupKeys (update_item_timestamp updates now) :=
    dNodupKeys_dSet "updated_at" (Value.time now) hnd
  refine ⟨?_, ?_, ?_⟩
  · exact dGet_dMerge_some _ _ _ _ hnd'
      (dGet_dSet_self updates "updated_at" (Value.time now))
  · intro k hk hnone
    have hu : dGet (update_item_timestamp updates now) k = Option.none := by
      rw [update_item_timestamp, dGet_dSet_ne updates "updated_at" k _ hk]
      exact hnone
    exact dGet_dMerge_none _ _ _ hu
  · intro k v hk hsome
    have hu : dGet (update_item_timestamp updates now) k = some v := by
      rw [update_item_timestamp, dGet_dSet_ne updates "updated_at" k _ hk]
      exact hsome
    exact dGet_dMerge_some _ _ _ _ hnd' hu

/-! ## Concrete fixtures (records used by witnesses and counterexamples) -/

/-- The candidate of the end-to-end example in the spec (§8). -/
def exR : Resume :=
  { id := "r1", name := "Алексей Иванов", position := "Python Developer",
    experience := 4,
    skills := ["Python", "Django", "PostgreSQL", "Docker", "Git"],
    education := "Высшее техническое образование",
    languages := ["Русский", "Английский"],
    contact_info := [("email", "alexey@example.com")],
    created_at := 0, updated_at := 0 }

/-- The job of the end-to-end example in the spec (§8). -/
def exJ : JobDescription :=
  { id := "j1", title := "Senior Python Developer",
    requirements := ["Опыт работы 3+ лет"],
    responsibilities := ["Разработка backend приложений"],
    skills_required := ["Python", "Django", "PostgreSQL", "Docker", "Redis"],
    experience_required := 3, created_at := 0 }

/-- Candidate of the empty-required-skills example: 1 year, skills ["X"]. -/
def cR5 : Resume :=
  { id := "r5", name := "C", position := "P", experience := 1,
    skills := ["X"], education := "E", languages := [],
    contact_info := [], created_at := 0, updated_at := 0 }

/-- Job of the empty-required-skills example: 2 years required, no skills. -/
def cJ5 : JobDescription :=
  { id := "j5", title := "T", requirements := [], responsibilities := [],
    skills_required := [], experience_required := 2, created_at := 0 }

/-- Candidate for the rounding counterexample: 1 year, no skills. -/
def cR3 : Resume :=
  { id := "r3", name := "D", position := "P", experience := 1,
    skills := [], education := "E", languages := [],
    contact_info := [], created_at := 0, updated_at := 0 }

/-- Job for the rounding counterexample: 3 years required, no skills,
giving the overall score 1/6 whose two roundings disagree. -/
def cJ3 : JobDescription :=
  { id := "j3", title := "T", requirements := [], responsibilities := [],
    skills_required := [], experience_required := 3, created_at := 0 }

/-- An analysis context over the `cR5`/`cJ5` records. -/
def ctx5 : AnalysisContext :=
  { resume := cR5, job_description := cJ5, context_text := "", prompt := "",
    parsed_data := Option.none }

theorem overall_score_cR5_cJ5 : overall_score cR5 cJ5 = 1/4 := by
  have hsm : skills_match cR5 cJ5 = 0 := by decide
  have htot : total_required_skills cJ5 = 1 := by decide
  rw [overall_score, skill_match_percentage, experience_match, hsm, htot]
  norm_num [cR5, cJ5]

theorem mock_cR5_cJ5_scores :
    (calculate_mock_analysis cR5 cJ5).relevance_score = 1/4 ∧
    (calculate_mock_analysis cR5 cJ5).job_match_percentage = 25 := by
  rw [calculate_mock_analysis]
  simp only [overall_score_cR5_cJ5]
  norm_num [pyRound, roundHalfEven]

theorem overall_score_cR3_cJ3 : overall_score cR3 cJ3 = 1/6 := by
  have hsm : skills_match cR3 cJ3 = 0 := by decide
  have htot : total_required_skills cJ3 = 1 := by decide
  rw [overall_score, skill_match_percentage, experience_match, hsm, htot]
  norm_num [cR3, cJ3]

/-! ## Claims about the mock scorer -/

/-- C1: the mock scorer is deterministic — two calls of
`calculate_mock_analysis` on identical resume/job inputs return
identical `relevance_score`, `job_match_percentage`, `strengths`,
`weaknesses`, `recommendations` and `analysis_text`; the function is
pure, with no dependence on external calls or hidden state. -/
theorem calculate_mock_analysis_deterministic
    (r₁ r₂ : Resume) (j₁ j₂ : JobDescription) (hr : r₁ = r₂) (hj : j₁ = j₂) :
    (calculate_mock_analysis r₁ j₁).relevance_score
        = (calculate_mock_analysis r₂ j₂).relevance_score ∧
    (calculate_mock_analysis r₁ j₁).job_match_percentage
        = (calculate_mock_analysis r₂ j₂).job_match_percentage ∧
    (calculate_mock_analysis r₁ j₁).strengths
        = (calculate_mock_analysis r₂ j₂).strengths ∧
    (calculate_mock_analysis r₁ j₁).weaknesses
        = (calculate_mock_analysis r₂ j₂).weaknesses ∧
    (calculate_mock_analysis r₁ j₁).recommendations
        = (calculate_mock_analysis r₂ j₂).recommendations ∧
    (calculate_mock_analysis r₁ j₁).analysis_text
        = (calculate_mock_analysis r₂ j₂).analysis_text := by
  subst hr
  subst hj
  exact ⟨rfl, rfl, rfl, rfl, rfl, rfl⟩

theorem calculate_mock_analysis_deterministic_witness :
    (calculate_mock_analysis exR exJ).relevance_score
        = (calculate_mock_analysis exR exJ).relevance_score ∧
    (calculate_mock_analysis exR exJ).job_match_percentage
        = (calculate_mock_analysis exR exJ).job_match_percentage ∧
    (calculate_mock_analysis exR exJ).strengths
        = (calculate_mock_analysis exR exJ).strengths ∧
    (calculate_mock_analysis exR exJ).weaknesses
        = (calculate_mock_analysis exR exJ).weaknesses ∧
    (calculate_mock_analysis exR exJ).recommendations
        = (calculate_mock_analysis exR exJ).recommendations ∧
    (calculate_mock_analysis exR exJ).analysis_text
        = (calculate_mock_analysis exR exJ).analysis_text :=
  calculate_mock_analysis_deterministic exR exR exJ exJ rfl rfl

/-- C5: if the job's required-skills list is empty, the skill-match
contribution `skill_match_percentage` is 0 regardless of the
candidate's skills; in particular for the job
`{experience_required: 2, skills_required: []}` and the candidate
`{experience: 1, skills: ["X"]}` the mock scorer returns
`relevance_score = 0.25` and `job_match_percentage = 25.0`. -/
theorem empty_required_skills_score :
    (∀ (resume : Resume) (job : JobDescription), job.skills_required = [] →
        skill_match_percentage resume job = 0) ∧
    (calculate_mock_analysis cR5 cJ5).relevance_score = 0.25 ∧
    (calculate_mock_analysis cR5 cJ5).job_match_percentage = 25 := by
  refine ⟨?_, ?_, mock_cR5_cJ5_scores.2⟩
  · intro resume job hempty
    have hsm : skills_match resume job = 0 := by
      simp [skills_match, hempty]
    simp [skill_match_percentage, hsm]
  · rw [mock_cR5_cJ5_scores.1]
    norm_num

theorem empty_required_skills_score_witness :
    skill_match_percentage cR5 cJ5 = 0 :=
  empty_required_skills_score.1 cR5 cJ5 rfl

/-- C2 (amended): on the non-mock path, when the external response is
absent or cannot be parsed, `_analyze_with_rag_safe` falls back to
`get_default_analysis()` — the fixed default data (relevance 0.5), not
the mock scorer — and produces no error, so the analysis never fails
solely because the external call failed. -/
theorem rag_unparsable_falls_back_to_default (m : AnalysisResultM)
    (ctx : AnalysisContext) (resp : Option String)
    (parse : String → Option AnalysisData)
    (herr : m.error = Option.none) (hctx : m.context = some ctx)
    (hfail : resp = Option.none ∨ ∃ s, resp = some s ∧ parse s = Option.none) :
    (analyze_with_rag_safe false m resp parse).error = Option.none ∧
    (analyze_with_rag_safe false m resp parse).context =
      some { ctx with parsed_data := some get_default_analysis } := by
  obtain ⟨mctx, merr⟩ := m
  simp only at herr hctx
  subst herr
  subst hctx
  rcases hfail with hresp | ⟨s, hresp, hparse⟩
  · subst hresp
    exact ⟨rfl, rfl⟩
  · subst hresp
    simp [analyze_with_rag_safe, hparse]

theorem rag_unparsable_falls_back_to_default_witness :
    (analyze_with_rag_safe false { context := some ctx5, error := Option.none }
        Option.none (fun _ => Option.none)).error = Option.none ∧
    (analyze_with_rag_safe false { context := some ctx5, error := Option.none }
        Option.none (fun _ => Option.none)).context
      = some { ctx5 with parsed_data := some get_default_analysis } :=
  rag_unparsable_falls_back_to_default _ ctx5 _ _ rfl rfl (Or.inl rfl)

/-- C2 counterexample: with the external response absent, the analysis
data is `get_default_analysis`, which differs from
`calculate_mock_analysis` on the same records (0.5 vs 0.25), so the
fallback is not the mock scorer's computation. -/
theorem rag_fallback_not_mock_cex :
    (analyze_with_rag_safe false { context := some ctx5, error := Option.none }
        Option.none (fun _ => Option.none)).context
      = some { ctx5 with parsed_data := some get_default_analysis } ∧
    get_default_analysis ≠ calculate_mock_analysis cR5 cJ5 := by
  constructor
  · rfl
  · intro h
    have h1 : get_default_analysis.relevance_score
        = (calculate_mock_analysis cR5 cJ5).relevance_score := by rw [h]
    rw [mock_cR5_cJ5_scores.1] at h1
    norm_num [get_default_analysis] at h1

/-- C3 (amended): for non-negative experience the mock scorer's
`relevance_score` lies in [0, 1] and `job_match_percentage` lies in
[0, 100]; `job_match_percentage` equals `round(overall_score * 100, 1)`
computed from the unrounded overall score, while `relevance_score` is
`round(overall_score, 2)` — the two roundings do not commute, so the
claimed identity against `round(relevance_score * 100, 1)` fails. -/
theorem mock_analysis_score_bounds (resume : Resume) (job : JobDescription)
    (h : 0 ≤ resume.experience) :
    0 ≤ (calculate_mock_analysis resume job).relevance_score ∧
    (calculate_mock_analysis resume job).relevance_score ≤ 1 ∧
    0 ≤ (calculate_mock_analysis resume job).job_match_percentage ∧
    (calculate_mock_analysis resume job).job_match_percentage ≤ 100 ∧
    (calculate_mock_analysis resume job).relevance_score
        = pyRound 2 (overall_score resume job) ∧
    (calculate_mock_analysis resume job).job_match_percentage
        = pyRound 1 (overall_score resume job * 100) := by
  have hsm_le : (skills_match resume job : ℚ) ≤ (total_required_skills job : ℚ) := by
    have h1 : skills_match resume job ≤ job.skills_required.toFinset.card :=
      Finset.card_le_card Finset.inter_subset_right
    have h2 : job.skills_required.toFinset.card ≤ job.skills_required.length :=
      job.skills_required.toFinset_card_le
    have h3 : job.skills_required.length ≤ total_required_skills job :=
      le_max_left _ _
    exact_mod_cast le_trans h1 (le_trans h2 h3)
  have htot_pos : (0 : ℚ) < (total_required_skills job : ℚ) := by
    have h1 : 1 ≤ total_required_skills job := le_max_right _ _
    exact_mod_cast Nat.lt_of_lt_of_le Nat.zero_lt_one h1
  have hsmp0 : 0 ≤ skill_match_percentage resume job := by
    rw [skill_match_percentage]
    positivity
  have hsmp100 : skill_match_percentage resume job ≤ 100 := by
    rw [skill_match_percentage]
    have hdiv : (skills_match resume job : ℚ) / (total_required_skills job : ℚ) ≤ 1 :=
      (div_le_one htot_pos).mpr hsm_le
    linarith
  have hem0 : 0 ≤ experience_match resume job := by
    rw [experience_match]
    apply le_min
    · apply div_nonneg
      · exact_mod_cast h
      · have h1 : (0 : ℤ) ≤ max job.experience_required 1 := by
          have := le_max_right job.experience_required 1
          omega
        exact_mod_cast h1
    · norm_num
  have hem1 : experience_match resume job ≤ 1 := min_le_right _ _
  have ho0 : 0 ≤ overall_score resume job := by
    rw [overall_score]
    linarith
  have ho1 : overall_score resume job ≤ 1 := by
    rw [overall_score]
    linarith
  have hrs := pyRound_mem_Icc 2 (overall_score resume job) 0 1
    (by exact_mod_cast ho0) (by exact_mod_cast ho1)
  have hjm := pyRound_mem_Icc 1 (overall_score resume job * 100) 0 100
    (by push_cast; linarith) (by push_cast; linarith)
  refine ⟨?_, ?_, ?_, ?_, rfl, rfl⟩
  · have := hrs.1
    push_cast at this
    exact this
  · have := hrs.2
    push_cast at this
    exact this
  · have := hjm.1
    push_cast at this
    exact this
  · have := hjm.2
    push_cast at this
    exact this

theorem mock_analysis_score_bounds_witness :
    0 ≤ (calculate_mock_analysis exR exJ).relevance_score ∧
    (calculate_mock_analysis exR exJ).relevance_score ≤ 1 ∧
    0 ≤ (calculate_mock_analysis exR exJ).job_match_percentage ∧
    (calculate_mock_analysis exR exJ).job_match_percentage ≤ 100 ∧
    (calculate_mock_analysis exR exJ).relevance_score
        = pyRound 2 (overall_score exR exJ) ∧
    (calculate_mock_analysis exR exJ).job_match_percentage
        = pyRound 1 (overall_score exR exJ * 100) :=
  mock_analysis_score_bounds exR exJ (by norm_num [exR])

/-- C3 counterexample: for experience 1, required experience 3 and no
skills the overall score is 1/6; the code returns
`job_match_percentage = round(100/6, 1) = 16.7` while
`round(relevance_score * 100, 1) = round(0.17 * 100, 1) = 17.0`. -/
theorem job_match_rounding_cex :
    (calculate_mock_analysis cR3 cJ3).job_match_percentage
      ≠ pyRound 1 ((calculate_mock_analysis cR3 cJ3).relevance_score * 100) := by
  have h1 : (calculate_mock_analysis cR3 cJ3).job_match_percentage = 167/10 := by
    rw [calculate_mock_analysis]
    simp only [overall_score_cR3_cJ3]
    norm_num [pyRound, roundHalfEven]
  have h2 : (calculate_mock_analysis cR3 cJ3).relevance_score = 17/100 := by
    rw [calculate_mock_analysis]
    simp only [overall_score_cR3_cJ3]
    norm_num [pyRound, roundHalfEven]
  rw [h1, h2]
  norm_num [pyRound, roundHalfEven]

/-! ## Claims about the record store -/

/-- C6 (amended): for a field map `x` that carries none of the
store-managed keys (`id`, `created_at`, `updated_at` — no caller in
this repository supplies them), `add_item` assigns the freshly
generated uuid as id, stamps both timestamps with the current time,
and — provided that uuid does not already occur as an id in the
collection, which the code does not check but uuid4 makes
overwhelmingly likely — a subsequent `get_item` with the returned id
yields exactly `x` extended with the generated `id`, `created_at` and
`updated_at`. A caller-supplied truthy `id` or `created_at` is kept
as-is instead (see the counterexample). -/
theorem add_item_roundtrip (state : List Dict) (x : Dict) (freshId : String) (now : Nat)
    (hid : dGet x "id" = Option.none)
    (hca : dGet x "created_at" = Option.none)
    (hua : dGet x "updated_at" = Option.none)
    (hfresh : ∀ d ∈ state, dGet d "id" ≠ some (Value.s freshId)) :
    (add_item_op state x freshId now).2 = Value.s freshId ∧
    ((get_item_op (add_item_op state x freshId now).1 (Value.s freshId)).2).data
      = some (x ++ [("id", Value.s freshId),
                    ("created_at", Value.time now),
                    ("updated_at", Value.time now)]) := by
  have hstep1 : dSet x "id" (Value.s freshId) = x ++ [("id", Value.s freshId)] :=
    dSet_eq_append_of_absent x "id" (Value.s freshId) hid
  have hca1 : dGet (x ++ [("id", Value.s freshId)]) "created_at" = Option.none := by
    rw [dGet_append, hca]
    simp [dGet]
  have hstep2 : dSet (x ++ [("id", Value.s freshId)]) "created_at" (Value.time now)
      = x ++ [("id", Value.s freshId)] ++ [("created_at", Value.time now)] :=
    dSet_eq_append_of_absent _ "created_at" (Value.time now) hca1
  have hua1 : dGet (x ++ [("id", Value.s freshId)] ++ [("created_at", Value.time now)])
      "updated_at" = Option.none := by
    rw [dGet_append, dGet_append, hua]
    simp [dGet]
  have hstep3 : dSet (x ++ [("id", Value.s freshId)] ++ [("created_at", Value.time now)])
      "updated_at" (Value.time now)
      = x ++ [("id", Value.s freshId)] ++ [("created_at", Value.time now)]
          ++ [("updated_at", Value.time now)] :=
    dSet_eq_append_of_absent _ "updated_at" (Value.time now) hua1
  have henr : enrich_item_with_metadata x freshId now
      = x ++ [("id", Value.s freshId), ("created_at", Value.time now),
              ("updated_at", Value.time now)] := by
    rw [enrich_item_with_metadata]
    simp only [hid, hca]
    rw [hstep1, hstep2, hstep3]
    simp [List.append_assoc]
  have hgetid : dGet (x ++ [("id", Value.s freshId), ("created_at", Value.time now),
      ("updated_at", Value.time now)]) "id" = some (Value.s freshId) := by
    rw [dGet_append, hid]
    simp [dGet]
  constructor
  · rw [add_item_op]
    simp only [henr, hgetid]
    rfl
  · rw [add_item_op, get_item_op]
    simp only [henr]
    have hnone : state.find?
        (fun d => decide (dGet d "id" = some (Value.s freshId))) = Option.none := by
      apply List.find?_eq_none.mpr
      intro d hd
      simp only [decide_eq_true_eq]
      exact hfresh d hd
    rw [find?_append_of_none hnone]
    simp [List.find?_cons, hgetid]

theorem add_item_roundtrip_witness :
    (add_item_op [[("id", Value.s "a")]] [("name", Value.s "Bob")] "b" 3).2
        = Value.s "b" ∧
    ((get_item_op (add_item_op [[("id", Value.s "a")]] [("name", Value.s "Bob")] "b" 3).1
        (Value.s "b")).2).data
      = some [("name", Value.s "Bob"), ("id", Value.s "b"),
              ("created_at", Value.time 3), ("updated_at", Value.time 3)] :=
  add_item_roundtrip [[("id", Value.s "a")]] [("name", Value.s "Bob")] "b" 3
    (by decide) (by decide) (by decide) (by decide)

/-- C6 counterexample: `enrich_item_with_metadata` keeps a truthy
caller-supplied `id` (`item.get('id') or generate_item_id()`), so
adding `x = {"id": "a"}` to a collection that already has a record with
id "a" returns the id "a" — not the freshly generated "b", and not an
id absent from the collection — and `get_item` with the returned id
then finds the pre-existing record, not the newly added one. -/
theorem add_item_caller_id_cex :
    (add_item_op [[("id", Value.s "a")]] [("id", Value.s "a")] "b" 1).2 = Value.s "a" ∧
    Value.s "a" ≠ Value.s "b" ∧
    dGet [("id", Value.s "a")] "id" = some (Value.s "a") ∧
    ((get_item_op (add_item_op [[("id", Value.s "a")]] [("id", Value.s "a")] "b" 1).1
        (Value.s "a")).2).data = some [("id", Value.s "a")] := by
  decide

/-- C7 (amended): `update_item` with a partial field map that does not
itself contain an `id` key (no caller in this repository passes one)
preserves every record's id; if the updates do contain an `id` key the
merge overwrites the record's id (see the counterexample), so ids are
not unconditionally immutable. -/
theorem update_item_preserves_ids (state : List Dict) (item_id : Value)
    (updates : Dict) (now : Nat) (hid : dGet updates "id" = Option.none) :
    ((update_item_op state item_id updates now).1).map (fun d => dGet d "id")
      = state.map (fun d => dGet d "id") := by
  rw [update_item_op]
  by_cases hw : state.any (fun d => decide (dGet d "id" = some item_id)) = true
  · simp only [hw, if_true]
    rw [List.map_map]
    apply List.map_congr_left
    intro d hd
    show dGet (update_single_item item_id updates now d) "id" = dGet d "id"
    rw [update_single_item]
    by_cases hmatch : dGet d "id" = some item_id
    · rw [if_pos hmatch]
      apply dGet_dMerge_none
      rw [update_item_timestamp, dGet_dSet_ne updates "updated_at" "id" _ (by decide)]
      exact hid
    · rw [if_neg hmatch]
  · simp only [hw, if_false]
    rfl

theorem update_item_preserves_ids_witness :
    ((update_item_op [[("id", Value.s "a"), ("x", Value.i 1)]] (Value.s "a")
        [("x", Value.i 2)] 7).1).map (fun d => dGet d "id")
      = [[("id", Value.s "a"), ("x", Value.i 1)]].map (fun d => dGet d "id") :=
  update_item_preserves_ids [[("id", Value.s "a"), ("x", Value.i 1)]] (Value.s "a")
    [("x", Value.i 2)] 7 (by decide)

/-- C7 counterexample: updating record "a" with the partial field map
`{"id": "b"}` rewrites the record's id to "b" — the store does not
protect the id from updates, and the caller has determined it. -/
theorem update_item_changes_id_cex :
    (update_item_op [[("id", Value.s "a")]] (Value.s "a")
        [("id", Value.s "b")] 2).1
      = [[("id", Value.s "b"), ("updated_at", Value.time 2)]] ∧
    Value.s "b" ≠ Value.s "a" := by
  decide

/-- C8: for a duplicate-free partial field map, `update_item` reports
not-found (and leaves the collection untouched) when no record's id
matches; reports success when one does; and record-for-record, a
non-matching record is left unchanged while a matching record gets
`updated_at` refreshed to now, keeps every field the updates do not
mention, and takes the updates' value for every field they do mention. -/
theorem update_item_merge_frame (state : List Dict) (item_id : Value)
    (updates : Dict) (now : Nat) (hnd : dNodupKeys updates) :
    ((∀ d ∈ state, dGet d "id" ≠ some item_id) →
        update_item_op state item_id updates now = (state, false)) ∧
    ((∃ d ∈ state, dGet d "id" = some item_id) →
        (update_item_op state item_id updates now).2 = true) ∧
    List.Forall₂ (fun old new =>
        (dGet old "id" ≠ some item_id → new = old) ∧
        (dGet old "id" = some item_id →
          dGet new "updated_at" = some (Value.time now) ∧
          (∀ k, k ≠ "updated_at" → dGet updates k = Option.none →
              dGet new k = dGet old k) ∧
          (∀ k v, k ≠ "updated_at" → dGet updates k = some v →
              dGet new k = some v)))
      state (update_item_op state item_id updates now).1 := by
  refine ⟨?_, ?_, ?_⟩
  · intro hnone
    rw [update_item_op]
    have hany : state.any (fun d => decide (dGet d "id" = some item_id)) = false := by
      rw [List.any_eq_false]
      intro d hd
      simp only [decide_eq_true_eq]
      exact hnone d hd
    simp [hany]
  · rintro ⟨d, hd, hmatch⟩
    rw [update_item_op]
    have hany : state.any (fun d => decide (dGet d "id" = some item_id)) = true :=
      List.any_eq_true.mpr ⟨d, hd, by simp [hmatch]⟩
    simp [hany]
  · by_cases hw : state.any (fun d => decide (dGet d "id" = some item_id)) = true
    · rw [update_item_op]
      simp only [hw, if_true]
      rw [List.forall₂_map_right_iff]
      apply List.forall₂_same.mpr
      intro d hd
      rw [update_single_item]
      by_cases hmatch : dGet d "id" = some item_id
      · rw [if_pos hmatch]
        exact ⟨fun hne => absurd hmatch hne,
               fun _ => merged_record_facts d updates now hnd⟩
      · rw [if_neg hmatch]
        exact ⟨fun _ => rfl, fun hm => absurd hm hmatch⟩
    · rw [update_item_op]
      rw [Bool.not_eq_true] at hw
      simp only [hw, Bool.false_eq_true, if_false]
      apply List.forall₂_same.mpr
      intro d hd
      have hne : dGet d "id" ≠ some item_id := by
        rw [List.any_eq_false] at hw
        have := hw d hd
        simpa using this
      exact ⟨fun _ => rfl, fun hm => absurd hm hne⟩

theorem update_item_merge_frame_witness :
    (update_item_op [[("id", Value.s "a"), ("x", Value.i 1)]] (Value.s "a")
        [("y", Value.i 2)] 7).2 = true :=
  (update_item_merge_frame [[("id", Value.s "a"), ("x", Value.i 1)]] (Value.s "a")
      [("y", Value.i 2)] 7 (by unfold dNodupKeys; decide)).2.1
    ⟨[("id", Value.s "a"), ("x", Value.i 1)], by decide, by decide⟩

/-- C9: `delete_item` on an id absent from the collection reports
not-found (`False`) and returns the collection exactly as it was — no
record is added, removed or modified and no write occurs. -/
theorem delete_item_absent_noop (state : List Dict) (item_id : Value)
    (h : ∀ d ∈ state, dGet d "id" ≠ some item_id) :
    delete_item_op state item_id = (state, false) := by
  have hfilter : state.filter (fun d => decide (dGet d "id" ≠ some item_id)) = state := by
    apply List.filter_eq_self.mpr
    intro d hd
    simp only [decide_eq_true_eq]
    exact h d hd
  simp only [delete_item_op]
  rw [hfilter]
  simp

theorem delete_item_absent_noop_witness :
    delete_item_op [[("id", Value.s "a")]] (Value.s "zz")
      = ([[("id", Value.s "a")]], false) :=
  delete_item_absent_noop [[("id", Value.s "a")]] (Value.s "zz") (by decide)

/-- C10: `get_item` on an id absent from the collection returns a
successful `StorageResult` — `success = True`, `error = None` — whose
`data` is `None`, indistinguishable at the success/error level from any
other success, and the collection is unchanged. -/
theorem get_item_absent_success (state : List Dict) (item_id : Value)
    (h : ∀ d ∈ state, dGet d "id" ≠ some item_id) :
    get_item_op state item_id
      = (state, { data := Option.none, success := true, error := Option.none }) := by
  rw [get_item_op]
  have hnone : state.find? (fun d => decide (dGet d "id" = some item_id))
      = Option.none := by
    apply List.find?_eq_none.mpr
    intro d hd
    simp only [decide_eq_true_eq]
    exact h d hd
  rw [hnone]

theorem get_item_absent_success_witness :
    get_item_op [[("id", Value.s "a")]] (Value.s "zz")
      = ([[("id", Value.s "a")]],
         { data := Option.none, success := true, error := Option.none }) :=
  get_item_absent_success [[("id", Value.s "a")]] (Value.s "zz") (by decide)

/-! ## The analyze endpoint's dead not-found branch -/

/-- C4: with both `resume_id` and `job_id` supplied but the records
absent, the endpoint answers 500, not the claimed 404 — the
`if not resume_data or not job_data` test inspects always-truthy
`StorageResult` objects, so the 404 branch is dead, and
`Resume(**resume_data)` then raises a `TypeError` caught as a server
error. The 400 half of the claim (missing `resume_id` or `job_id`)
does hold. -/
theorem analyze_endpoint_notfound_gives_500 :
    analyze_resume_status [] []
        [("resume_id", Value.s "r1"), ("job_id", Value.s "j1")] = 500 ∧
    (500 : Nat) ≠ 404 ∧
    analyze_resume_status [] [] [("job_id", Value.s "j1")] = 400 ∧
    analyze_resume_status [] [] [("resume_id", Value.s "r1")] = 400 := by
  decide
